import Mathlib

/-!
Shallow embedding of the 4cecoder/saas Go backend: the GORM data model and
its lifecycle hooks (`models/models.go`), the JWT authentication middleware
(`auth/auth.go`), and the default-admin bootstrap (`main.go`).

External collaborators (the bcrypt library, the crypto/rand source, the JWT
signature primitive, the database) are modelled as explicit parameters; the
logic of the repository's own functions is translated line by line.
-/

namespace Saas

/-- Go `time.Time`, abstracted to a number of nanoseconds; `0` plays the role
of the zero `time.Time`, so `IsZero` is the test against `0`. -/
abbrev Time := Nat

/-- `time.Time.IsZero`. -/
def Time.isZero (t : Time) : Bool := t == 0

/-! ### base64url encoding (Go `encoding/base64`, `base64.URLEncoding`)

`base64.URLEncoding` is the URL-safe alphabet WITH `=` padding
(`EncodedLen n = 4 * ((n + 2) / 3)`).  Bytes are modelled as `Nat`s below
256; the encoder reads each value's six-bit groups exactly as Go does. -/

/-- The URL-safe base64 alphabet used by Go's `base64.URLEncoding`. -/
def base64urlAlphabet : List Char :=
  [ 'A', 'B', 'C', 'D', 'E', 'F', 'G', 'H', 'I', 'J', 'K', 'L', 'M',
    'N', 'O', 'P', 'Q', 'R', 'S', 'T', 'U', 'V', 'W', 'X', 'Y', 'Z',
    'a', 'b', 'c', 'd', 'e', 'f', 'g', 'h', 'i', 'j', 'k', 'l', 'm',
    'n', 'o', 'p', 'q', 'r', 's', 't', 'u', 'v', 'w', 'x', 'y', 'z',
    '0', '1', '2', '3', '4', '5', '6', '7', '8', '9', '-', '_' ]

/-- Character of a six-bit group. -/
def b64Char (n : Nat) : Char := base64urlAlphabet.getD n 'A'

/-- Go `base64.URLEncoding.EncodeToString`, on the byte list: three input
bytes become four alphabet characters; a final group of one or two bytes is
padded with `=` to a four-character block. -/
def base64urlEncode : List Nat → List Char
  | [] => []
  | [b1] =>
    [b64Char (b1 / 4), b64Char (b1 % 4 * 16), '=', '=']
  | [b1, b2] =>
    [b64Char (b1 / 4), b64Char (b1 % 4 * 16 + b2 / 16), b64Char (b2 % 16 * 4), '=']
  | b1 :: b2 :: b3 :: rest =>
    b64Char (b1 / 4) :: b64Char (b1 % 4 * 16 + b2 / 16) ::
      b64Char (b2 % 16 * 4 + b3 / 64) :: b64Char (b3 % 64) :: base64urlEncode rest

/-- `base64.URLEncoding.EncodeToString` as a `String`. -/
def encodeToString (bytes : List Nat) : String := ⟨base64urlEncode bytes⟩

/-- Outcome of a Go function that may `panic` instead of returning. -/
inductive RandOutcome (α : Type) : Type
  | panicked (e : String) : RandOutcome α
  | ok (v : α) : RandOutcome α
deriving DecidableEq, Repr

/-- `generateRandomString length` (models/models.go).  `randRead` is the
outcome of `rand.Read` on the `length`-byte buffer: either the bytes the
system random source produced, or its error.  On error the Go function
`panic`s; otherwise it returns the base64url encoding of the bytes. -/
def generateRandomString (_length : Nat) (randRead : Except String (List Nat)) :
    RandOutcome String :=
  match randRead with
  | .error e => .panicked e
  | .ok bytes => .ok (encodeToString bytes)

/-! ### The bcrypt collaborator (`golang.org/x/crypto/bcrypt`)

The library is external; we model it as any pair of functions satisfying
its documented contract: a hash produced by `GenerateFromPassword` verifies
against the original password via `CompareHashAndPassword`. -/

/-- Model of the bcrypt library: `generateFromPassword` may fail (e.g. the
password exceeds 72 bytes); `compareHashAndPassword h p = true` means the
comparison succeeds (`CompareHashAndPassword` returns nil).  `generate_sound`
is the library's contract tying the two together. -/
structure Bcrypt where
  generateFromPassword : String → Except String String
  compareHashAndPassword : String → String → Bool
  generate_sound : ∀ p h, generateFromPassword p = Except.ok h →
    compareHashAndPassword h p = true

/-! ### The data model (models/models.go)

Structures keep the source's fields.  Many-to-many association slices whose
element type would be mutually recursive with `User` (Organization's user
list) are not representable as plain Lean structures and are GORM join-table
relations rather than record state, so `Organization` is modelled standalone
and `User.organizations` is omitted; every field any hook reads or writes is
present. -/

/-- `models.Base`: common fields of all models. -/
structure Base where
  id : Nat
  createdAt : Time
  updatedAt : Time
  deletedAt : Option Time
deriving DecidableEq, Repr

/-- `models.Permission`. -/
structure Permission where
  base : Base
  name : String
  description : String
deriving DecidableEq, Repr

/-- `models.Role`. -/
structure Role where
  base : Base
  name : String
  permissions : List Permission
deriving DecidableEq, Repr

/-- `models.SeatStatus` (a named string type in Go). -/
abbrev SeatStatus := String

/-- `models.Seat`. -/
structure Seat where
  base : Base
  organizationID : Nat
  userID : Nat
  roles : List Role
  status : SeatStatus
deriving DecidableEq, Repr

/-- A JSON value, for the `jsonb` metadata columns (`models.JSONMap` is
`map[string]interface{}` in Go). -/
inductive JSONValue : Type
  | null : JSONValue
  | bool (b : Bool) : JSONValue
  | num (n : Int) : JSONValue
  | str (s : String) : JSONValue
deriving DecidableEq, Repr

/-- `models.JSONMap`. -/
abbrev JSONMap := List (String × JSONValue)

/-- `models.ActivityLog`. -/
structure ActivityLog where
  base : Base
  userID : Nat
  organizationID : Nat
  activityType : String
  timestamp : Time
  metadata : JSONMap
deriving DecidableEq, Repr

/-- `models.NotificationPreference`. -/
structure NotificationPreference where
  base : Base
  userID : Nat
  emailEnabled : Bool
  smsEnabled : Bool
  inAppEnabled : Bool
  billingEmails : Bool
  productEmails : Bool
  marketingEmails : Bool
deriving DecidableEq, Repr

/-- `models.User`.  `password` is the transient plaintext (`json:"-"`),
`passwordHash` the stored hash, `verificationCode` the creation-time token. -/
structure User where
  base : Base
  email : String
  password : String
  passwordHash : String
  name : String
  roles : List Role
  seats : List Seat
  permissions : List Permission
  verificationCode : String
  verified : Bool
  activityLogs : List ActivityLog
  notificationPrefs : NotificationPreference
  locale : String
  timezone : String
  language : String
deriving DecidableEq, Repr

/-- `models.UserRole` constant. -/
def UserRole : String := "user"

/-- `models.AdminRole` constant. -/
def AdminRole : String := "admin"

/-- Outcome of a GORM `BeforeCreate` hook: the Go hook may `panic` (inside
`generateRandomString`), return a non-nil error (aborting the create), or
return nil with the receiver mutated to `v`. -/
inductive HookResult (α : Type) : Type
  | panicked (e : String) : HookResult α
  | error (e : String) : HookResult α
  | ok (v : α) : HookResult α
deriving DecidableEq, Repr

/-- `(*User).hashPassword`: if the plaintext password is non-empty, hash it
with bcrypt (propagating a bcrypt error), store the hash and clear the
plaintext; otherwise do nothing. -/
def hashPassword (bc : Bcrypt) (u : User) : Except String User :=
  if u.password ≠ "" then
    match bc.generateFromPassword u.password with
    | .error e => .error e
    | .ok hashedPassword =>
      .ok { u with passwordHash := hashedPassword, password := "" }
  else
    .ok u

/-- `(*User).BeforeCreate`: hash the password (aborting on error), then
overwrite `VerificationCode` with `generateRandomString(32)`.  `randRead` is
the outcome of the hook's `rand.Read` call on the 32-byte buffer. -/
def userBeforeCreate (bc : Bcrypt) (randRead : Except String (List Nat))
    (u : User) : HookResult User :=
  match hashPassword bc u with
  | .error e => .error e
  | .ok u1 =>
    match generateRandomString 32 randRead with
    | .panicked e => .panicked e
    | .ok code => .ok { u1 with verificationCode := code }

/-- `(*User).BeforeUpdate`: re-hash only when the ORM reports the `Password`
field as changed (`tx.Statement.Changed("Password")`, here the boolean
`passwordChanged`). -/
def userBeforeUpdate (bc : Bcrypt) (passwordChanged : Bool) (u : User) :
    Except String User :=
  if passwordChanged then
    hashPassword bc u
  else
    .ok u

/-! ### Billing model (models/models.go) -/

/-- `models.SubscriptionStatus` (a named string type in Go). -/
abbrev SubscriptionStatus := String

/-- `models.SubscriptionStatusTrialing` and friends. -/
def SubscriptionStatusActive : SubscriptionStatus := "active"

/-- `models.SubscriptionStatusInactive`. -/
def SubscriptionStatusInactive : SubscriptionStatus := "inactive"

/-- `models.SubscriptionStatusTrialing`. -/
def SubscriptionStatusTrialing : SubscriptionStatus := "trialing"

/-- `models.SubscriptionStatusCanceled`. -/
def SubscriptionStatusCanceled : SubscriptionStatus := "canceled"

/-- `models.Feature`. -/
structure Feature where
  base : Base
  name : String
  description : String
deriving DecidableEq, Repr

/-- `models.SubscriptionPlan`.  `price` is a Go `float64`. -/
structure SubscriptionPlan where
  base : Base
  name : String
  description : String
  price : Float
  currency : String
  interval : String
  features : List Feature
deriving Repr

/-- `models.PaymentTransaction`. -/
structure PaymentTransaction where
  base : Base
  subscriptionID : Nat
  amount : Float
  currency : String
  status : String
  gateway : String
  gatewayID : String
  timestamp : Time
deriving Repr

/-- `models.Subscription`. -/
structure Subscription where
  base : Base
  organizationID : Nat
  subscriptionPlan : SubscriptionPlan
  status : SubscriptionStatus
  startDate : Time
  endDate : Time
  transactions : List PaymentTransaction
  paymentMethod : String
  lastPaymentDate : Time
  nextBillingDate : Time
deriving Repr

/-- `(*Subscription).BeforeCreate`: default the status to `"trialing"` when
empty, default the start date to `time.Now()` (the parameter `now`) when
zero, and return nil. -/
def subscriptionBeforeCreate (now : Time) (s : Subscription) :
    Except String Subscription :=
  let s1 := if s.status = "" then { s with status := SubscriptionStatusTrialing } else s
  let s2 := if s1.startDate.isZero then { s1 with startDate := now } else s1
  .ok s2

/-! ### API keys (models/models.go) -/

/-- `models.APIKey`. -/
structure APIKey where
  base : Base
  userID : Nat
  organizationID : Nat
  key : String
  name : String
  permissions : List String
  expiresAt : Time
  lastUsedAt : Time
deriving DecidableEq, Repr

/-- `(*APIKey).BeforeCreate`: overwrite `Key` with `generateRandomString(32)`
and return nil.  `randRead` is the outcome of the hook's `rand.Read` call on
the 32-byte buffer. -/
def apiKeyBeforeCreate (randRead : Except String (List Nat)) (k : APIKey) :
    HookResult APIKey :=
  match generateRandomString 32 randRead with
  | .panicked e => .panicked e
  | .ok s => .ok { k with key := s }

/-! ### The authentication gate (auth/auth.go)

JWT parsing and HMAC signature checking belong to the `golang-jwt/jwt`
library.  A parsed token is modelled by what `jwt.Parse` with the source's
keyfunc establishes about it: whether its signing method is HMAC (the
keyfunc rejects anything else), whether its signature verifies under the
server's `jwtKey`, and its claim map. -/

/-- A JWT claim value (`jwt.MapClaims` holds `interface{}` values). -/
inductive ClaimValue : Type
  | str (s : String) : ClaimValue
  | num (n : Nat) : ClaimValue
  | other : ClaimValue
deriving DecidableEq, Repr

/-- A parsed bearer token, as seen through `jwt.Parse` with the source's
keyfunc: `methodIsHMAC` is the keyfunc's signing-method test,
`signatureValid` means the signature verifies under `jwtKey`, `claims` is
the claim map. -/
structure Token where
  methodIsHMAC : Bool
  signatureValid : Bool
  claims : List (String × ClaimValue)
deriving DecidableEq, Repr

/-- Claim lookup in a claim map. -/
def lookupClaim (claims : List (String × ClaimValue)) (key : String) :
    Option ClaimValue :=
  match claims.find? (fun kv => kv.fst == key) with
  | some kv => some kv.snd
  | none => none

/-- `auth.GenerateToken`: sign `{"id": user.ID, "role": "user"}` with
`jwtKey` using HS256 — so the result is HMAC-signed and verifies under
`jwtKey`. -/
def GenerateToken (userID : Nat) : Token :=
  { methodIsHMAC := true, signatureValid := true,
    claims := [("id", .num userID), ("role", .str "user")] }

/-- `auth.GenerateAdminToken`: same, with role claim `"admin"`. -/
def GenerateAdminToken (userID : Nat) : Token :=
  { methodIsHMAC := true, signatureValid := true,
    claims := [("id", .num userID), ("role", .str "admin")] }

/-- `auth.VerifyToken`, on a parsed token: `jwt.Parse` fails when the
keyfunc rejects the signing method or the signature does not verify; then
the code requires the claims cast and `token.Valid` (both established by a
successful `jwt.Parse`) and a string-typed `"role"` claim, which it
returns. -/
def VerifyToken (t : Token) : Except String String :=
  if !t.methodIsHMAC then .error "invalid signing method"
  else if !t.signatureValid then .error "signature is invalid"
  else
    match lookupClaim t.claims "role" with
    | some (.str role) => .ok role
    | _ => .error "invalid role"

/-- Go `strings.Split` for a one-character separator, on the character
list: splits around every occurrence of `sep`; the empty input yields one
empty segment, as in Go. -/
def splitOnChar (sep : Char) : List Char → List (List Char)
  | [] => [[]]
  | c :: rest =>
    match splitOnChar sep rest with
    | [] => [[]]
    | seg :: segs =>
      if c = sep then [] :: seg :: segs else (c :: seg) :: segs

/-- Go `strings.Split s (String.singleton sep)` as a `String` operation. -/
def goSplit (s : String) (sep : Char) : List String :=
  (splitOnChar sep s.toList).map (fun cs => ⟨cs⟩)

/-- `auth.ExtractToken`: split the `Authorization` header on spaces; when
that yields exactly two segments return the second, otherwise return the
empty string. -/
def ExtractToken (authorizationHeader : String) : String :=
  if (goSplit authorizationHeader ' ').length = 2 then
    (goSplit authorizationHeader ' ').getD 1 ""
  else
    ""

/-- The number of dot-separated segments of a compact JWT string.
`jwt.Parse` rejects any string without exactly three. -/
def tokenSegments (s : String) : Nat := (goSplit s '.').length

/-- `auth.VerifyToken` from the header string: extract the token string,
then parse it.  `parse` stands for the library's decoding of a well-formed
compact JWT into a parsed token; any string without exactly three
dot-separated segments (in particular the empty string) is rejected before
`parse` is consulted. -/
def VerifyTokenFromHeader (parse : String → Option Token)
    (authorizationHeader : String) : Except String String :=
  let tokenString := ExtractToken authorizationHeader
  if tokenSegments tokenString ≠ 3 then
    .error "token contains an invalid number of segments"
  else
    match parse tokenString with
    | none => .error "token could not be decoded"
    | some t => VerifyToken t

/-- Outcome of a gin middleware: `proceed` is `c.Next()` (the guarded
handler runs); `unauthorized` is the 401 JSON response followed by
`c.Abort()` (the guarded handler never runs). -/
inductive GateOutcome : Type
  | proceed : GateOutcome
  | unauthorized : GateOutcome
deriving DecidableEq, Repr

/-- `auth.IsUserOrAdmin`: verify the token; reject unless the role is
`models.UserRole` or `models.AdminRole`. -/
def IsUserOrAdmin (t : Token) : GateOutcome :=
  match VerifyToken t with
  | .error _ => .unauthorized
  | .ok role =>
    if role ≠ UserRole ∧ role ≠ AdminRole then .unauthorized else .proceed

/-- `auth.AuthMiddleware requiredRole`: verify the token; reject unless the
role equals `requiredRole`. -/
def AuthMiddleware (requiredRole : String) (t : Token) : GateOutcome :=
  match VerifyToken t with
  | .error _ => .unauthorized
  | .ok role => if role ≠ requiredRole then .unauthorized else .proceed

/-! ### Default admin bootstrap (main.go) -/

/-- The zero `NotificationPreference` (Go zero values). -/
def zeroNotificationPrefs : NotificationPreference :=
  { base := { id := 0, createdAt := 0, updatedAt := 0, deletedAt := none },
    userID := 0, emailEnabled := false, smsEnabled := false,
    inAppEnabled := false, billingEmails := false, productEmails := false,
    marketingEmails := false }

/-- The admin `User` literal built by `createDefaultAdmin` (main.go): only
`Email`, `PasswordHash`, `Name`, `Roles` and `Verified` are set; every
other field — in particular the plaintext `Password` — is the Go zero
value. -/
def defaultAdmin : User :=
  { base := { id := 0, createdAt := 0, updatedAt := 0, deletedAt := none },
    email := "admin",
    password := "",
    passwordHash := "password",
    name := "Admin User",
    roles := [{ base := { id := 0, createdAt := 0, updatedAt := 0, deletedAt := none },
                name := "admin", permissions := [] }],
    seats := [],
    permissions := [],
    verificationCode := "",
    verified := true,
    activityLogs := [],
    notificationPrefs := zeroNotificationPrefs,
    locale := "",
    timezone := "",
    language := "" }

/-! ### Concrete instances used to evaluate the theorems -/

/-- A concrete bcrypt-contract instance for evaluating theorems on inputs:
hashing prefixes a marker, comparison checks it. -/
def idBcrypt : Bcrypt where
  generateFromPassword p := Except.ok ("$2a$" ++ p)
  compareHashAndPassword h p := h == "$2a$" ++ p
  generate_sound := by
    intro p h hgen
    simp only [Except.ok.injEq] at hgen
    simp [hgen]

/-- The zero `User` (all Go zero values). -/
def emptyUser : User :=
  { base := { id := 0, createdAt := 0, updatedAt := 0, deletedAt := none },
    email := "", password := "", passwordHash := "", name := "", roles := [],
    seats := [], permissions := [], verificationCode := "", verified := false,
    activityLogs := [], notificationPrefs := zeroNotificationPrefs,
    locale := "", timezone := "", language := "" }

/-- A user arriving at the create path with a plaintext password. -/
def sampleUser : User := { emptyUser with password := "secret" }

/-- What the creation hook makes of `sampleUser` under `idBcrypt` and an
all-zero 32-byte random read. -/
def sampleCreated : User :=
  { sampleUser with
      password := "", passwordHash := "$2a$secret",
      verificationCode := encodeToString (List.replicate 32 0) }

/-- What the creation hook makes of `emptyUser` under an all-zero 32-byte
random read. -/
def emptyCreated : User :=
  { emptyUser with verificationCode := encodeToString (List.replicate 32 0) }

/-! ### Helper lemmas -/

/-- Length of Go's padded base64url encoding: four output characters per
three-byte group, the final partial group padded to four. -/
theorem base64urlEncode_length : ∀ bs : List Nat,
    (base64urlEncode bs).length = 4 * ((bs.length + 2) / 3)
  | [] => by simp [base64urlEncode]
  | [_] => by simp [base64urlEncode]
  | [_, _] => by simp [base64urlEncode]
  | _ :: _ :: _ :: rest => by
    have ih := base64urlEncode_length rest
    simp only [base64urlEncode, List.length_cons, ih]
    omega

/-- `hashPassword` on a non-empty password is the bcrypt branch. -/
theorem hashPassword_pos (bc : Bcrypt) (u : User) (hpw : u.password ≠ "") :
    hashPassword bc u =
      match bc.generateFromPassword u.password with
      | Except.error e => Except.error e
      | Except.ok hp => Except.ok { u with passwordHash := hp, password := "" } := by
  simp [hashPassword, hpw]

/-! ### The claims -/

/-- C1: for every User created with a non-empty plaintext password, when the
creation hook succeeds the stored password field is empty and the stored
hash verifies against the original plaintext via bcrypt's comparison; when
bcrypt hashing fails, the hook returns that error (aborting the create). -/
theorem userBeforeCreate_hashes_password (bc : Bcrypt)
    (randRead : Except String (List Nat)) (u : User)
    (hpw : u.password ≠ "") :
    (∀ u', userBeforeCreate bc randRead u = HookResult.ok u' →
      u'.password = "" ∧
      bc.compareHashAndPassword u'.passwordHash u.password = true) ∧
    (∀ e, bc.generateFromPassword u.password = Except.error e →
      userBeforeCreate bc randRead u = HookResult.error e) := by
  constructor
  · intro u' hok
    unfold userBeforeCreate at hok
    rw [hashPassword_pos bc u hpw] at hok
    cases hgen : bc.generateFromPassword u.password with
    | error e => rw [hgen] at hok; simp at hok
    | ok hp =>
      rw [hgen] at hok
      cases randRead with
      | error e => simp [generateRandomString] at hok
      | ok bytes =>
        simp only [generateRandomString, HookResult.ok.injEq] at hok
        subst hok
        exact ⟨rfl, bc.generate_sound u.password hp hgen⟩
  · intro e hgen
    unfold userBeforeCreate
    rw [hashPassword_pos bc u hpw, hgen]

/-- C1 witness: the theorem evaluated at a concrete user with password
`"secret"`, the `idBcrypt` instance and a concrete random read. -/
theorem userBeforeCreate_hashes_password_witness :
    sampleUser.password ≠ "" ∧
    sampleCreated.password = "" ∧
    idBcrypt.compareHashAndPassword sampleCreated.passwordHash sampleUser.password = true := by
  have hpw : sampleUser.password ≠ "" := by decide
  have h := (userBeforeCreate_hashes_password idBcrypt
      (Except.ok (List.replicate 32 0)) sampleUser hpw).1 sampleCreated (by decide)
  exact ⟨hpw, h.1, h.2⟩

/-- C2 counterexample: a concrete creation on which the hook succeeds and
the generated verification code has 44 characters, not 43 — Go's
`base64.URLEncoding` is the padded alphabet, so 32 bytes encode to 44
characters (ending in one `=`). -/
theorem userBeforeCreate_code_not_43 :
    userBeforeCreate idBcrypt (Except.ok (List.replicate 32 0)) emptyUser =
      HookResult.ok emptyCreated ∧
    ¬ emptyCreated.verificationCode.length = 43 := by
  constructor
  · decide
  · decide

/-- C2 (amended): for every User creation in which the hook succeeds and the
random source supplied 32 bytes, the generated verification code is their
padded base64url encoding, a 44-character string. -/
theorem userBeforeCreate_code_length (bc : Bcrypt) (bytes : List Nat) (u : User)
    (u' : User) (hlen : bytes.length = 32)
    (hok : userBeforeCreate bc (Except.ok bytes) u = HookResult.ok u') :
    u'.verificationCode = encodeToString bytes ∧
    u'.verificationCode.length = 44 := by
  have hcode : u'.verificationCode = encodeToString bytes := by
    unfold userBeforeCreate at hok
    cases hhp : hashPassword bc u with
    | error e => rw [hhp] at hok; simp at hok
    | ok u1 =>
      rw [hhp] at hok
      simp only [generateRandomString, HookResult.ok.injEq] at hok
      subst hok
      rfl
  refine ⟨hcode, ?_⟩
  rw [hcode]
  show (base64urlEncode bytes).length = 44
  rw [base64urlEncode_length, hlen]

/-- C2 witness: the amended theorem evaluated at a concrete 32-byte read. -/
theorem userBeforeCreate_code_length_witness :
    (List.replicate 32 (0 : Nat)).length = 32 ∧
    emptyCreated.verificationCode.length = 44 := by
  have h := userBeforeCreate_code_length idBcrypt (List.replicate 32 0) emptyUser
      emptyCreated (by decide) (by decide)
  exact ⟨by decide, h.2⟩

/-- C3: for every User update in which the `Password` field is not marked as
changed, the update hook returns the user unchanged — in particular the
stored `PasswordHash` is exactly its value before the update. -/
theorem userBeforeUpdate_preserves_hash (bc : Bcrypt) (u : User) :
    userBeforeUpdate bc false u = Except.ok u := rfl

/-- C9: for every User created with an empty `Password`, the creation hook
succeeds, overwrites only `VerificationCode` (with the fresh random token),
and in particular leaves `PasswordHash` exactly as the caller supplied it. -/
theorem userBeforeCreate_empty_password (bc : Bcrypt) (bytes : List Nat)
    (u : User) (hpw : u.password = "") :
    userBeforeCreate bc (Except.ok bytes) u =
      HookResult.ok { u with verificationCode := encodeToString bytes } := by
  simp [userBeforeCreate, hashPassword, hpw, generateRandomString]

/-- C9 witness: the theorem evaluated at the zero user (whose supplied
`PasswordHash` is preserved) and a concrete one-byte random read. -/
theorem userBeforeCreate_empty_password_witness :
    emptyUser.password = "" ∧
    userBeforeCreate idBcrypt (Except.ok [0]) emptyUser =
      HookResult.ok { emptyUser with verificationCode := encodeToString [0] } :=
  ⟨rfl, userBeforeCreate_empty_password idBcrypt [0] emptyUser rfl⟩

/-- C4: the role-exact gate proceeds exactly when token verification
succeeds with the required role, the user-or-admin gate exactly when it
succeeds with role `"user"` or `"admin"`; every other case is the 401 +
abort outcome.  Concretely, a correctly signed admin token passes the
admin-only gate, while the same user's user token is rejected there but
accepted by the user-or-admin gate. -/
theorem authGates_role_matching (r : String) (t : Token) (uid : Nat) :
    (AuthMiddleware r t = GateOutcome.proceed ↔ VerifyToken t = Except.ok r) ∧
    (AuthMiddleware r t = GateOutcome.unauthorized ↔ ¬ VerifyToken t = Except.ok r) ∧
    (IsUserOrAdmin t = GateOutcome.proceed ↔
      (VerifyToken t = Except.ok UserRole ∨ VerifyToken t = Except.ok AdminRole)) ∧
    (IsUserOrAdmin t = GateOutcome.unauthorized ↔
      ¬ (VerifyToken t = Except.ok UserRole ∨ VerifyToken t = Except.ok AdminRole)) ∧
    AuthMiddleware AdminRole (GenerateAdminToken uid) = GateOutcome.proceed ∧
    AuthMiddleware AdminRole (GenerateToken uid) = GateOutcome.unauthorized ∧
    IsUserOrAdmin (GenerateToken uid) = GateOutcome.proceed := by
  refine ⟨?_, ?_, ?_, ?_, rfl, rfl, rfl⟩
  · unfold AuthMiddleware
    cases hv : VerifyToken t with
    | error e => simp
    | ok role => by_cases hr : role = r <;> simp [hr]
  · unfold AuthMiddleware
    cases hv : VerifyToken t with
    | error e => simp
    | ok role => by_cases hr : role = r <;> simp [hr]
  · unfold IsUserOrAdmin
    cases hv : VerifyToken t with
    | error e => simp
    | ok role =>
      by_cases hu : role = UserRole <;> by_cases ha : role = AdminRole <;>
        simp [hu, ha]
  · unfold IsUserOrAdmin
    cases hv : VerifyToken t with
    | error e => simp
    | ok role =>
      by_cases hu : role = UserRole <;> by_cases ha : role = AdminRole <;>
        simp [hu, ha]

/-- C5: token extraction returns the second space-delimited segment of the
`Authorization` header when splitting on spaces yields exactly two segments,
and the empty string for every other segment count; verification of the
resulting empty string then fails (the empty string has one dot-separated
segment, not three). -/
theorem extractToken_two_segments (hdr : String) (parse : String → Option Token) :
    ((goSplit hdr ' ').length = 2 → ExtractToken hdr = (goSplit hdr ' ').getD 1 "") ∧
    ((goSplit hdr ' ').length ≠ 2 →
      ExtractToken hdr = "" ∧
      VerifyTokenFromHeader parse hdr =
        Except.error "token contains an invalid number of segments") := by
  constructor
  · intro h2
    simp [ExtractToken, h2]
  · intro h2
    have he : ExtractToken hdr = "" := by simp [ExtractToken, h2]
    refine ⟨he, ?_⟩
    simp only [VerifyTokenFromHeader, he]
    rfl

/-- C6: the subscription creation hook defaults an empty status to
`"trialing"` and a zero start date to the current time, leaves both alone
otherwise, changes no other field, and never returns an error. -/
theorem subscriptionBeforeCreate_defaults (now : Time) (s : Subscription) :
    subscriptionBeforeCreate now s =
      Except.ok { s with
        status := if s.status = "" then SubscriptionStatusTrialing else s.status,
        startDate := if s.startDate.isZero then now else s.startDate } := by
  unfold subscriptionBeforeCreate
  by_cases h1 : s.status = "" <;> by_cases h2 : s.startDate = 0 <;>
    simp [h1, h2, Time.isZero]

/-- C7: on a random-source failure, the random-string generator panics with
that error; it returns no value and falls back to nothing. -/
theorem generateRandomString_panics (length : Nat) (e : String) :
    generateRandomString length (Except.error e) = RandOutcome.panicked e := rfl

/-- C8: the API-key creation hook overwrites only `Key` (with the padded
base64url encoding of the 32 random bytes) — `ExpiresAt`, `LastUsedAt` and
every other field stay exactly as the caller supplied them — and it never
returns an error. -/
theorem apiKeyBeforeCreate_sets_only_key (bytes : List Nat) (k : APIKey)
    (randRead : Except String (List Nat)) :
    apiKeyBeforeCreate (Except.ok bytes) k =
      HookResult.ok { k with key := encodeToString bytes } ∧
    (∀ e, apiKeyBeforeCreate randRead k ≠ HookResult.error e) := by
  constructor
  · rfl
  · intro e h
    cases randRead <;> simp [apiKeyBeforeCreate, generateRandomString] at h

/-- C10: the default admin user built at startup has an empty plaintext
`Password` and the literal `"password"` as its `PasswordHash`; the creation
hook's hashing step is therefore a no-op, and the persisted record keeps
the 8-character plaintext literal in the hash field (a bcrypt hash would be
a 60-character `$2a$...` string). -/
theorem defaultAdmin_stores_plaintext_hash (bc : Bcrypt) (bytes : List Nat) :
    defaultAdmin.password = "" ∧
    defaultAdmin.passwordHash = "password" ∧
    userBeforeCreate bc (Except.ok bytes) defaultAdmin =
      HookResult.ok { defaultAdmin with verificationCode := encodeToString bytes } ∧
    ({ defaultAdmin with verificationCode := encodeToString bytes } : User).passwordHash
      = "password" ∧
    ¬ ({ defaultAdmin with verificationCode := encodeToString bytes } : User).passwordHash.length
      = 60 := by
  refine ⟨rfl, rfl, ?_, rfl, ?_⟩
  · simp [userBeforeCreate, hashPassword, generateRandomString, defaultAdmin]
  · show ¬ defaultAdmin.passwordHash.length = 60
    decide

end Saas
